import Mathlib

/-!
# Verification of the multi-agent pipeline core (`optimal_implementation.py`)
and the sandbox wrapper (`integrate_forevervm.py`)

This file is a shallow embedding, in Lean 4, of the parts of the repository
that the specification's testable properties talk about:

* the `AgentType` / `MessageType` / `SystemState` enumerations;
* the `Message` record with its `__init__` / `to_dict` / `from_dict` logic;
* the base `Agent` status handling (`update_status`, `start`, `stop`) and the
  `run` loop's try/except/finally structure;
* the `AnalysisAgent.analyze_crawl_result` percentage computations;
* the `FeedbackAgent.evaluate_implementation` scoring rubric;
* the `OrchestratorAgent` state machine (`handle_message`,
  `start_iteration`, `check_system_progress`);
* `ForeverVMSandbox.execute_code` together with the stub
  `ForeverVMMachine.run` it calls.

Python `float` arithmetic in the analysis/feedback computations is embedded
with `ℚ`; the numerators and denominators involved are small counts, and the
claims under scrutiny are about which arithmetic expression is computed, not
about rounding of IEEE doubles.  Python exceptions are embedded with
`Except`, optional values with `Option`, and dictionaries whose key sets are
fixed by the code with structures.
-/

namespace MultiAgent

/-! ## Enumerations (`AgentType`, `MessageType`, `SystemState`) -/

/-- `class AgentType(Enum)`: the five pipeline agents. -/
inductive AgentType
  | orchestrator
  | crawler
  | analysis
  | implementation
  | feedback
deriving DecidableEq, Repr

/-- `AgentType.value`: the string value of each enum member. -/
def AgentType.value : AgentType → String
  | .orchestrator => "orchestrator"
  | .crawler => "crawler"
  | .analysis => "analysis"
  | .implementation => "implementation"
  | .feedback => "feedback"

/-- `AgentType(s)`: the enum constructor applied to a string.  In Python it
raises `ValueError` on an unknown string; here it returns `none`. -/
def AgentType.fromValue : String → Option AgentType
  | "orchestrator" => some .orchestrator
  | "crawler" => some .crawler
  | "analysis" => some .analysis
  | "implementation" => some .implementation
  | "feedback" => some .feedback
  | _ => none

/-- `class MessageType(Enum)`: the four message kinds. -/
inductive MessageType
  | request
  | response
  | notifyMsg
  | errorMsg
deriving DecidableEq, Repr

/-- `MessageType.value`.  The Python members are `REQUEST = "request"`,
`RESPONSE = "response"`, `NOTIFICATION = "notification"`, `ERROR = "error"`;
the Lean constructors `notifyMsg` / `errorMsg` stand for the latter two. -/
def MessageType.value : MessageType → String
  | .request => "request"
  | .response => "response"
  | .notifyMsg => "notification"
  | .errorMsg => "error"

/-- `MessageType(s)`: string-to-enum conversion, `none` for `ValueError`. -/
def MessageType.fromValue : String → Option MessageType
  | "request" => some .request
  | "response" => some .response
  | "notification" => some .notifyMsg
  | "error" => some .errorMsg
  | _ => none

/-- `class SystemState(Enum)`: the orchestrator-owned global states. -/
inductive SystemState
  | initializing
  | crawling
  | analyzing
  | implementing
  | feedback
  | complete
  | error
deriving DecidableEq, Repr

/-- `SystemState.value`. -/
def SystemState.value : SystemState → String
  | .initializing => "initializing"
  | .crawling => "crawling"
  | .analyzing => "analyzing"
  | .implementing => "implementing"
  | .feedback => "feedback"
  | .complete => "complete"
  | .error => "error"

/-! ## `Message`

The `payload` and `metadata` fields are free-form `Dict[str, Any]` mappings;
the value type `V` is a parameter, standing for Python's `Any`, and a mapping
is an association list of string keys to values.  The round-trip code copies
these mappings verbatim, so nothing about `V` is assumed. -/

/-- A free-form string-keyed mapping (`Dict[str, Any]`). -/
abbrev JDict (V : Type) := List (String × V)

/-- The fields of a constructed `Message` object. -/
structure Message (V : Type) where
  message_id : String
  source_agent : AgentType
  destination_agent : AgentType
  message_type : MessageType
  timestamp : String
  priority : Int
  payload : JDict V
  metadata : JDict V
deriving DecidableEq

/-- The string `f"{int(time.time())}-{id(self)}"` used when no (truthy)
`message_id` is supplied: `t` embeds `int(time.time())`, `i` embeds
`id(self)`. -/
def genMessageId (t i : Nat) : String :=
  toString t ++ "-" ++ toString i

/-- `Message.__init__`.  `message_id or gen` and `timestamp or utcnow()`
use Python truthiness: `None` and the empty string both fall back to the
generated value.  `metadata or {}` maps `None` (and the empty dict, which
is its own fallback) to the empty mapping.  The nondeterministic inputs of
the fallbacks — the clock value, the object identity, and
`datetime.utcnow().isoformat()` — are passed explicitly as `t`, `i`,
`nowIso`. -/
def Message.init {V : Type} (source_agent destination_agent : AgentType)
    (message_type : MessageType) (payload : JDict V)
    (message_id : Option String) (timestamp : Option String)
    (priority : Int) (metadata : Option (JDict V))
    (t i : Nat) (nowIso : String) : Message V :=
  { message_id :=
      match message_id with
      | some s => if s = "" then genMessageId t i else s
      | none => genMessageId t i
    source_agent := source_agent
    destination_agent := destination_agent
    message_type := message_type
    timestamp :=
      match timestamp with
      | some s => if s = "" then nowIso else s
      | none => nowIso
    priority := priority
    payload := payload
    metadata := metadata.getD [] }

/-- The dictionary produced by `Message.to_dict`: the enum-valued fields are
stored as their string values, everything else verbatim. -/
structure MessageDict (V : Type) where
  message_id : String
  source_agent : String
  destination_agent : String
  message_type : String
  timestamp : String
  priority : Int
  payload : JDict V
  metadata : JDict V
deriving DecidableEq

/-- `Message.to_dict`. -/
def Message.to_dict {V : Type} (m : Message V) : MessageDict V :=
  { message_id := m.message_id
    source_agent := m.source_agent.value
    destination_agent := m.destination_agent.value
    message_type := m.message_type.value
    timestamp := m.timestamp
    priority := m.priority
    payload := m.payload
    metadata := m.metadata }

/-- `Message.from_dict`: converts the enum strings back through the enum
constructors (Python raises `ValueError` on unknown strings — here `none`)
and calls `cls(...)`, i.e. `Message.init`, with every field supplied.  The
`t`, `i`, `nowIso` arguments feed `init`'s fallbacks, which fire only when
the stored id/timestamp strings are empty. -/
def Message.from_dict {V : Type} (data : MessageDict V) (t i : Nat)
    (nowIso : String) : Option (Message V) := do
  let src ← AgentType.fromValue data.source_agent
  let dst ← AgentType.fromValue data.destination_agent
  let mt ← MessageType.fromValue data.message_type
  pure (Message.init src dst mt data.payload
    (some data.message_id) (some data.timestamp)
    data.priority (some data.metadata) t i nowIso)

/-! ## `Agent` (base class): status handling and the `run` loop

The base agent keeps `self.status` in memory and persists status records to
`self.status_file` via `update_status`.  The file is overwritten on each
write; we keep the full list of writes (`statusWrites`, oldest first), so the
persisted content at any moment is the last element. -/

/-- One record written to an agent's status file:
`{"status": ..., "timestamp": ..., "agent_type": ...[, "error": ...]}`.
The wall-clock timestamp carries no logical content and is omitted. -/
structure StatusRecord where
  status : String
  agent_type : AgentType
  error : Option String
deriving DecidableEq, Repr

/-- The in-memory fields of a base `Agent` relevant to status handling,
plus the history of status-file writes. -/
structure AgentState where
  agent_type : AgentType
  running : Bool
  status : String
  statusWrites : List StatusRecord
deriving DecidableEq, Repr

/-- Python truthiness of an optional string: `None` and the empty string
are falsy, every other string is truthy. -/
def strTruthy : Option String → Bool
  | some s => !(s == "")
  | none => false

/-- `Agent.update_status(error=None)`.  The record written to the file is
composed from `self.status` as it is at entry; only afterwards, inside the
`if error:` branch, is the error field attached and the in-memory status
set to `"error"`.  The branch uses Python truthiness: it is skipped both
for `None` and for an empty error string, in which case the record has no
error field and the in-memory status is left unchanged.  The `try/except`
around the file write swallows I/O errors; the write is modelled as
succeeding. -/
def AgentState.update_status (s : AgentState) (error : Option String) :
    AgentState :=
  let status_data : StatusRecord :=
    { status := s.status, agent_type := s.agent_type, error := none }
  let status_data :=
    if strTruthy error then { status_data with error := error }
    else status_data
  let s :=
    if strTruthy error then { s with status := "error" } else s
  { s with statusWrites := s.statusWrites ++ [status_data] }

/-- `Agent.start`: marks the agent running and persists the status. -/
def AgentState.startAgent (s : AgentState) : AgentState :=
  ({ s with running := true, status := "running" }).update_status none

/-- `Agent.stop`: marks the agent idle and persists the status. -/
def AgentState.stopAgent (s : AgentState) : AgentState :=
  ({ s with running := false, status := "idle" }).update_status none

/-- The persisted status: the `status` field of the last write to the
status file (the file is overwritten on each write). -/
def AgentState.persistedStatus (s : AgentState) : Option String :=
  (s.statusWrites.getLast?).map StatusRecord.status

/-- One pass of the `while self.running` body of `Agent.run`, as observed
from outside: either the queue yields a message (handled or re-queued —
neither touches the status fields), or the queue is empty (`do_work` plus a
sleep — the default `do_work` is a no-op), or an exception escapes the body
at this point. -/
inductive LoopEvent
  | msg
  | empty
  | exc (e : String)
deriving DecidableEq, Repr

/-- Whether a loop event is an escaping exception. -/
def LoopEvent.isExc : LoopEvent → Bool
  | .exc _ => true
  | _ => false

/-- The `while` loop of `Agent.run` together with its surrounding
`try/except/finally`, driven by a finite trace of loop events.  An escaping
exception takes the `except` branch — set `self.status = "error"`, then
`self.update_status(str(e))` — and the loop is not re-entered (the `try`
wraps the whole `while`, so the remaining events are discarded); the
`finally` branch then runs `self.stop()`.  A trace with no exception ends
with the flag-driven loop exit, after which `finally` runs `self.stop()`
as well. -/
def AgentState.runLoop (s : AgentState) : List LoopEvent → AgentState
  | [] => s.stopAgent
  | .exc e :: _ =>
      (({ s with status := "error" }).update_status (some e)).stopAgent
  | .msg :: rest => s.runLoop rest
  | .empty :: rest => s.runLoop rest

/-- `Agent.run`: `await self.start()` and then the guarded loop. -/
def AgentState.run (s : AgentState) (events : List LoopEvent) : AgentState :=
  s.startAgent.runLoop events

/-! ## `AnalysisAgent.analyze_crawl_result`

The crawl result loaded from disk has shape
`{base_url, pages: [...], assets: [...]}` where each page carries
`has_header` / `has_footer` / `has_nav` / `num_sections` and each asset
entry carries `css_count` / `js_count` / `image_count`. -/

/-- One entry of `crawl_result["pages"]` (the keys the analysis reads). -/
structure Page where
  has_header : Bool
  has_footer : Bool
  has_nav : Bool
  num_sections : Nat
deriving DecidableEq, Repr

/-- One entry of `crawl_result["assets"]`. -/
structure AssetEntry where
  css_count : Nat
  js_count : Nat
  image_count : Nat
deriving DecidableEq, Repr

/-- The crawl result artifact. -/
structure CrawlResult where
  base_url : String
  pages : List Page
  assets : List AssetEntry
deriving DecidableEq, Repr

/-- `analysis["page_structure"]`. -/
structure PageStructure where
  header_percentage : ℚ
  footer_percentage : ℚ
  nav_percentage : ℚ
  avg_sections_per_page : ℚ
deriving DecidableEq, Repr

/-- `analysis["asset_analysis"]` (when `crawl_result["assets"]` is
non-empty; otherwise the key keeps its initial empty-dict value). -/
structure AssetAnalysis where
  total_css_files : Nat
  total_js_files : Nat
  total_images : Nat
  avg_css_per_page : ℚ
  avg_js_per_page : ℚ
  avg_images_per_page : ℚ
deriving DecidableEq, Repr

/-- The analysis artifact. -/
structure AnalysisResult where
  base_url : String
  pages_analyzed : Nat
  page_structure : PageStructure
  asset_analysis : AssetAnalysis
  recommendations : List String
deriving DecidableEq, Repr

/-- `sum(1 for page in pages if f(page))`. -/
def countPages (pages : List Page) (f : Page → Bool) : Nat :=
  (pages.map (fun p => if f p then 1 else 0)).sum

/-- The `analysis["page_structure"]` computation:
`(count / len(pages)) * 100 if crawl_result["pages"] else 0` for the three
flags, and the analogous average for `num_sections`. -/
def pageStructureOf (cr : CrawlResult) : PageStructure :=
  let has_header_count := countPages cr.pages (·.has_header)
  let has_footer_count := countPages cr.pages (·.has_footer)
  let has_nav_count := countPages cr.pages (·.has_nav)
  { header_percentage :=
      if cr.pages = [] then 0
      else ((has_header_count : ℚ) / cr.pages.length) * 100
    footer_percentage :=
      if cr.pages = [] then 0
      else ((has_footer_count : ℚ) / cr.pages.length) * 100
    nav_percentage :=
      if cr.pages = [] then 0
      else ((has_nav_count : ℚ) / cr.pages.length) * 100
    avg_sections_per_page :=
      if cr.pages = [] then 0
      else ((cr.pages.map Page.num_sections).sum : ℚ) / cr.pages.length }

/-- The `analysis["asset_analysis"]` computation, performed only when
`crawl_result["assets"]` is truthy (non-empty). -/
def assetAnalysisOf (assets : List AssetEntry) : AssetAnalysis :=
  let total_css := (assets.map AssetEntry.css_count).sum
  let total_js := (assets.map AssetEntry.js_count).sum
  let total_images := (assets.map AssetEntry.image_count).sum
  { total_css_files := total_css
    total_js_files := total_js
    total_images := total_images
    avg_css_per_page := (total_css : ℚ) / assets.length
    avg_js_per_page := (total_js : ℚ) / assets.length
    avg_images_per_page := (total_images : ℚ) / assets.length }

/-- The pure core of `AnalysisAgent.analyze_crawl_result` (after the
artifact has been loaded, before it is saved).  When
`crawl_result["assets"]` is empty, `analysis["asset_analysis"]` keeps its
initial `{}` value, and the recommendation check
`analysis["asset_analysis"]["avg_js_per_page"] > 5` raises `KeyError`
(`"asset_analysis" in analysis` is always true — the key is initialized up
front); the exception is modelled with `Except.error`, matching the
function's `except` branch (error notification, no artifact saved). -/
def analyze_crawl_result (cr : CrawlResult) :
    Except String AnalysisResult :=
  let ps := pageStructureOf cr
  let recs0 : List String :=
    if ps.header_percentage > 90 then
      ["Implement consistent header across all pages"] else []
  let recs1 : List String := recs0 ++
    (if ps.footer_percentage > 90 then
      ["Implement consistent footer across all pages"] else [])
  if cr.assets = [] then
    Except.error "KeyError: avg_js_per_page"
  else
    let aa := assetAnalysisOf cr.assets
    let recs2 : List String := recs1 ++
      (if aa.avg_js_per_page > 5 then
        ["Consider bundling JavaScript files to improve loading performance"]
      else [])
    Except.ok
      { base_url := cr.base_url
        pages_analyzed := cr.pages.length
        page_structure := ps
        asset_analysis := aa
        recommendations := recs2 }

/-! ## `FeedbackAgent.evaluate_implementation` -/

/-- The slice of the implementation artifact the feedback rubric reads:
`implementation["files"]` (only its length matters — each entry is a file
descriptor) and `implementation.get("test_results", {}).get("tests_passed")`
(`none` when the key chain is absent). -/
structure Implementation where
  files : List String
  tests_passed : Option Bool
deriving DecidableEq, Repr

/-- The feedback artifact (the `implementation_path` string field carries no
logic and is omitted). -/
structure FeedbackResult where
  score : ℚ
  strengths : List String
  weaknesses : List String
  suggestions : List String
  overall_assessment : String
deriving DecidableEq, Repr

/-- The `for recommendation in analysis.get("recommendations", []):` loop:
it increments `recommendations_followed` once per recommendation,
unconditionally. -/
def countFollowed : List String → Nat
  | [] => 0
  | _ :: rest => countFollowed rest + 1

/-- The pure core of `FeedbackAgent.evaluate_implementation` (after the
three artifacts have been loaded): the score rubric, the fixed suggestions,
and the three-band overall assessment.  `recommendations` is
`analysis.get("recommendations", [])` from the analysis artifact; the crawl
result is loaded but not read by the rubric. -/
def evaluate_implementation (impl : Implementation)
    (recommendations : List String) : FeedbackResult :=
  let score : ℚ := 0
  let strengths : List String := []
  let weaknesses : List String := []
  let (score, strengths, weaknesses) :=
    if impl.files.length ≥ 3 then
      (score + 1,
       strengths ++ ["Generated all required files (HTML, CSS, JavaScript)"],
       weaknesses)
    else
      (score, strengths, weaknesses ++ ["Missing some required files"])
  let (score, strengths, weaknesses) :=
    match impl.tests_passed with
    | some true =>
        (score + 1, strengths ++ ["Implementation passes all tests"],
         weaknesses)
    | some false =>
        (score, strengths,
         weaknesses ++ ["Implementation fails some tests"])
    | none => (score, strengths, weaknesses)
  let recommendations_followed := countFollowed recommendations
  let (score, strengths) :=
    if recommendations_followed = recommendations.length then
      (score + 1,
       strengths ++
         ["Implementation follows all recommendations from analysis"])
    else if recommendations_followed > 0 then
      (score + 1/2,
       strengths ++
         ["Implementation follows " ++ toString recommendations_followed ++
          " recommendations from analysis"])
    else (score, strengths)
  let suggestions : List String :=
    ["Add more responsive design features",
     "Implement accessibility improvements",
     "Consider adding animation effects for better user experience"]
  let overall_assessment : String :=
    if score ≥ 2 then "Good implementation that meets most requirements"
    else if score ≥ 1 then
      "Acceptable implementation with room for improvement"
    else "Implementation needs significant improvement"
  { score := score
    strengths := strengths
    weaknesses := weaknesses
    suggestions := suggestions
    overall_assessment := overall_assessment }

/-! ## `OrchestratorAgent`

The orchestrator's in-memory fields (`system_state`, `current_iteration`,
`max_iterations`, `agents_status`, `agent_results`, `target_url`) form the
state of a small state machine.  `agents_status` is a dict keyed by the five
agent value strings (initialized to `"idle"` for every agent type), so it is
embedded as a total function on `AgentType`; `agent_results` is a dict that
may lack keys, embedded as a function into `Option`.  `update_system_state`
only mirrors these fields to a file and is not modelled separately.  The
base-agent fields inherited from `Agent` are modelled by `AgentState`
above. -/

/-- The orchestrator's mutable fields.  `config_url` is the
`website_url` entry of the shared config file, written by `save_config`
inside the `set_url` branch. -/
structure OrchestratorState where
  system_state : SystemState
  current_iteration : Nat
  max_iterations : Nat
  agents_status : AgentType → String
  agent_results : AgentType → Option String
  target_url : Option String
  config_url : Option String

/-- `self.agents_status[a.value] = v`. -/
def updStatus (f : AgentType → String) (a : AgentType) (v : String) :
    AgentType → String :=
  fun x => if x = a then v else f x

/-- `self.agent_results[a.value] = p`. -/
def updResult (f : AgentType → Option String) (a : AgentType) (p : String) :
    AgentType → Option String :=
  fun x => if x = a then some p else f x

/-- The five dict keys of `agents_status`, in declaration order. -/
def allAgents : List AgentType :=
  [.orchestrator, .crawler, .analysis, .implementation, .feedback]

/-- `any(status == "error" for status in self.agents_status.values())`. -/
def anyStatusError (f : AgentType → String) : Bool :=
  (allAgents.map f).any (fun st => st = "error")

/-- The messages the orchestrator sends, by shape:
`start_iteration`'s crawl request to the crawler, and the response messages
returned from `handle_message` (identified by their payloads). -/
inductive OrcOut
  | crawlRequest (url : Option String) (iteration : Nat)
  | ack (dest : AgentType)
  | errorAck (dest : AgentType)
  | urlSet (dest : AgentType) (url : String)
  | noUrlError (dest : AgentType)
  | started (dest : AgentType) (iteration : Nat)
  | noTargetError (dest : AgentType)
  | stopped (dest : AgentType)
deriving DecidableEq, Repr

/-- Whether an outbound message is a crawl request (the message that starts
an iteration's pipeline). -/
def OrcOut.isCrawlRequest : OrcOut → Bool
  | .crawlRequest _ _ => true
  | _ => false

/-- The message shapes `OrchestratorAgent.handle_message` dispatches on:
notifications (`payload.status`, `payload.result_path`), error messages
(`payload.error`), and the three request actions.  `otherIn` covers every
other shape, which falls through to `super().handle_message` (log only). -/
inductive OrcIn
  | notifyIn (src : AgentType) (status : String) (result_path : Option String)
  | errorIn (src : AgentType) (error : String)
  | setUrl (src : AgentType) (url : Option String)
  | startReq (src : AgentType)
  | stopReq (src : AgentType)
  | otherIn
deriving DecidableEq, Repr

/-- `OrchestratorAgent.start_iteration`: increments the iteration counter,
resets `agent_results`, and either declares completion (budget exhausted) or
moves to `crawling`, sends the crawl request, and marks the crawler
running. -/
def start_iteration (s : OrchestratorState) :
    OrchestratorState × List OrcOut :=
  let s := { s with
    current_iteration := s.current_iteration + 1
    agent_results := fun _ => none }
  if s.current_iteration > s.max_iterations then
    ({ s with system_state := SystemState.complete }, [])
  else
    let s := { s with system_state := SystemState.crawling }
    let out := [OrcOut.crawlRequest s.target_url s.current_iteration]
    ({ s with agents_status := updStatus s.agents_status .crawler "running" },
     out)

/-- The per-state progress checks at the bottom of
`check_system_progress`: in each in-progress state, if the matching agent's
result has been recorded, advance; in `feedback`, either start the next
iteration or complete. -/
def progressPhase (s : OrchestratorState) :
    OrchestratorState × List OrcOut :=
  if s.system_state = SystemState.crawling then
    if (s.agent_results .crawler).isSome then
      ({ s with system_state := SystemState.analyzing }, [])
    else (s, [])
  else if s.system_state = SystemState.analyzing then
    if (s.agent_results .analysis).isSome then
      ({ s with system_state := SystemState.implementing }, [])
    else (s, [])
  else if s.system_state = SystemState.implementing then
    if (s.agent_results .implementation).isSome then
      ({ s with system_state := SystemState.feedback }, [])
    else (s, [])
  else if s.system_state = SystemState.feedback then
    if (s.agent_results .feedback).isSome then
      if s.current_iteration < s.max_iterations then start_iteration s
      else ({ s with system_state := SystemState.complete }, [])
    else (s, [])
  else (s, [])

/-- `OrchestratorAgent.check_system_progress`: if any agent's status is
`"error"` and it is the crawler, force the global `error` state and return;
every other path (no error at all, or a non-crawler error) falls through to
the per-state progress checks. -/
def check_system_progress (s : OrchestratorState) :
    OrchestratorState × List OrcOut :=
  if anyStatusError s.agents_status then
    if s.agents_status .crawler = "error" then
      ({ s with system_state := SystemState.error }, [])
    else progressPhase s
  else progressPhase s

/-- `OrchestratorAgent.handle_message`.  In the completion-notification
branch, the source guards the recording of the result path with
`if result_path:` — Python truthiness, so a missing *or empty* path is not
recorded. -/
def handle_message (s : OrchestratorState) (m : OrcIn) :
    OrchestratorState × List OrcOut :=
  match m with
  | .notifyIn src status result_path =>
      if status = "complete" then
        let s := { s with agents_status := updStatus s.agents_status src "idle" }
        let s :=
          match result_path with
          | some p =>
              if p = "" then s
              else { s with agent_results := updResult s.agent_results src p }
          | none => s
        ((check_system_progress s).1,
         (check_system_progress s).2 ++ [OrcOut.ack src])
      else (s, [])
  | .errorIn src _ =>
      let s := { s with agents_status := updStatus s.agents_status src "error" }
      ((check_system_progress s).1,
       (check_system_progress s).2 ++ [OrcOut.errorAck src])
  | .setUrl src url =>
      match url with
      | some u =>
          if u = "" then (s, [OrcOut.noUrlError src])
          else
            let s := { s with target_url := some u, config_url := some u }
            if s.system_state = SystemState.complete ∨
                s.system_state = SystemState.initializing then
              ((start_iteration s).1,
               (start_iteration s).2 ++ [OrcOut.urlSet src u])
            else (s, [OrcOut.urlSet src u])
      | none => (s, [OrcOut.noUrlError src])
  | .startReq src =>
      match s.target_url with
      | some u =>
          if u = "" then (s, [OrcOut.noTargetError src])
          else
            ((start_iteration s).1,
             (start_iteration s).2 ++
               [OrcOut.started src (start_iteration s).1.current_iteration])
      | none => (s, [OrcOut.noTargetError src])
  | .stopReq src =>
      ({ s with system_state := SystemState.complete }, [OrcOut.stopped src])
  | .otherIn => (s, [])

/-- `OrchestratorAgent.__init__`: `initializing`, iteration `0`,
`max_iterations = 3` (the `--iterations` CLI flag is parsed but never
applied), every agent `"idle"`, no results, no target URL. -/
def orchInit : OrchestratorState :=
  { system_state := SystemState.initializing
    current_iteration := 0
    max_iterations := 3
    agents_status := fun _ => "idle"
    agent_results := fun _ => none
    target_url := none
    config_url := none }

/-- `OrchestratorAgent.start`: loads the config, takes
`config.get("website_url")` as the target, re-asserts `initializing`, and
starts the first iteration if the target is truthy (`if self.target_url:` —
`None` and the empty string are both falsy). -/
def orchestratorStart (s : OrchestratorState) (configUrl : Option String) :
    OrchestratorState × List OrcOut :=
  let s := { s with
    target_url := configUrl
    system_state := SystemState.initializing }
  match configUrl with
  | some u => if u = "" then (s, []) else start_iteration s
  | none => (s, [])

/-- Folding `handle_message` over a list of incoming messages (the
orchestrator's view of a run: each message it dequeues is handled in
turn). -/
def runOrch (s : OrchestratorState) : List OrcIn → OrchestratorState
  | [] => s
  | m :: rest => runOrch (handle_message s m).1 rest

/-- The in-order-pipeline condition relating `system_state` to
`agent_results`: while a stage is in progress, that stage's result has not
yet been recorded.  This holds as long as the orchestrator processes each
iteration's completion notifications in pipeline order (each recording
immediately advances the state past the matching check, and
`start_iteration` clears `agent_results` before entering `crawling`), but
it is *not* an invariant of `handle_message` in general: a completion
notification processed out of order — possible in the program, since every
agent pops and re-enqueues messages not addressed to it, rotating the
shared queue — records a result without advancing, after which a later
advance re-enters the matching state with the result already present (see
the C1 counterexample below). -/
def resultConsistent (s : OrchestratorState) : Bool :=
  match s.system_state with
  | .crawling => (s.agent_results .crawler).isNone
  | .analyzing => (s.agent_results .analysis).isNone
  | .implementing => (s.agent_results .implementation).isNone
  | .feedback => (s.agent_results .feedback).isNone
  | _ => true

/-! ## `ForeverVMSandbox.execute_code` and the stub `ForeverVMMachine.run`

`integrate_forevervm.py` unconditionally defines a stub `ForeverVM` whose
`create_machine` returns a `ForeverVMMachine`; `ForeverVMMachine.run`
executes the code with `subprocess.run(..., timeout=timeout)` and returns a
plain **dict** `{"output": ..., "return_value": ..., "state": ...}` for each
of the three outcomes (completion, `TimeoutExpired`, any other
exception). -/

/-- The outcome of the `subprocess.run` call inside
`ForeverVMMachine.run`: normal completion (with captured stdout/stderr),
`subprocess.TimeoutExpired`, or any other exception. -/
inductive SubprocessOutcome
  | completed (stdout stderr : String)
  | timedOut
  | raised (msg : String)
deriving DecidableEq, Repr

/-- The dict returned by `ForeverVMMachine.run` — a plain Python `dict`
with keys `output`, `return_value`, `state`. -/
structure RunDict where
  output : String
  return_value : Option String
  state : String
deriving DecidableEq, Repr

/-- `ForeverVMMachine.run`: the three return dicts of the stub. -/
def machineRun (outcome : SubprocessOutcome) : RunDict :=
  match outcome with
  | .completed stdout stderr =>
      { output := stdout ++ stderr
        return_value := some "Stub sandbox simulation result"
        state := "complete" }
  | .timedOut =>
      { output := "Code execution timed out"
        return_value := none
        state := "timeout" }
  | .raised msg =>
      { output := "Error executing code: " ++ msg
        return_value := none
        state := "error" }

/-- CPython attribute access `obj.name` where `obj` is a plain `dict`
instance: dict entries are not attributes, so the access raises
`AttributeError` no matter which keys the dict holds.  (CPython renders the
message with quotes around the two names.) -/
def RunDict.getattr (_d : RunDict) (name : String) : Except String String :=
  Except.error ("AttributeError: dict object has no attribute " ++ name)

/-- The dict returned by `ForeverVMSandbox.execute_code`: its key set is
exactly `{success, output, return_value, error}` in both the `try` and the
`except` branch, which this structure embeds. -/
structure ExecResult where
  success : Bool
  output : Option String
  return_value : Option String
  error : Option String
deriving DecidableEq, Repr

/-- `ForeverVMSandbox.execute_code`.  The outer `Except` is the function's
exception boundary: `Except.error` means an exception escapes to the
caller, which happens only for the `RuntimeError` raised when no machine
has been created.  Inside the guard, the `try` body calls
`self.machine.run(...)` (which never raises — it catches everything) and
then reads `result.output` and `result.return_value` as attributes of the
returned dict; the `except Exception` branch converts any exception from
the body into the `success: False` dict. -/
def execute_code (machineCreated : Bool) (outcome : SubprocessOutcome) :
    Except String ExecResult :=
  if machineCreated = false then
    Except.error
      "RuntimeError: ForeverVM machine not created. Use with-statement or create_machine()."
  else
    let result := machineRun outcome
    let body : Except String ExecResult := do
      let out ← result.getattr "output"
      let rv ← result.getattr "return_value"
      pure { success := true, output := some out,
             return_value := some rv, error := none }
    match body with
    | .ok r => Except.ok r
    | .error e =>
        Except.ok { success := false, output := none,
                    return_value := none, error := some e }

/-! ## Helper lemmas -/

/-- String-to-enum conversion inverts `value` for `AgentType`. -/
lemma agentType_fromValue_value (a : AgentType) :
    AgentType.fromValue a.value = some a := by
  cases a <;> rfl

/-- String-to-enum conversion inverts `value` for `MessageType`. -/
lemma messageType_fromValue_value (m : MessageType) :
    MessageType.fromValue m.value = some m := by
  cases m <;> rfl

/-- A generated message id `f"{t}-{i}"` is never the empty string. -/
lemma genMessageId_ne_empty (t i : Nat) : genMessageId t i ≠ "" := by
  intro h
  have hlen := congrArg String.length h
  simp [genMessageId, String.length_append] at hlen
  exact absurd hlen.1.2 (by decide)

/-! ## C2: `Message` round-trip -/

/-- **C2.** For every message `m` — any source agent, destination agent,
message type, priority, timestamp, payload and metadata mappings, i.e. any
output of `Message.__init__` — `Message.from_dict(Message.to_dict(m))`
equals `m` field-for-field, the enum-valued fields being serialized as
their string values.  The hypothesis `hnow` records that
`datetime.utcnow().isoformat()` (the fallback timestamp) is never the
empty string; the generated message id is provably non-empty.  The
`t2`, `i2`, `now2` arguments are the clock/identity the deserializing call
would use for its fallbacks, which the proof shows are never taken. -/
theorem message_roundtrip {V : Type} (src dst : AgentType)
    (mt : MessageType) (payload : JDict V) (mid ts : Option String)
    (priority : Int) (metadata : Option (JDict V)) (t i : Nat)
    (nowIso : String) (t2 i2 : Nat) (now2 : String)
    (hnow : nowIso ≠ "") :
    Message.from_dict
      (Message.to_dict
        (Message.init src dst mt payload mid ts priority metadata t i nowIso))
      t2 i2 now2
    = some (Message.init src dst mt payload mid ts priority metadata t i nowIso) := by
  unfold Message.from_dict Message.to_dict
  simp only [agentType_fromValue_value, messageType_fromValue_value,
    Option.bind_eq_bind, Option.some_bind, Option.some.injEq]
  unfold Message.init
  rcases mid with _ | s <;> rcases ts with _ | s'
  · simp [genMessageId_ne_empty, hnow]
  · by_cases hs' : s' = "" <;> simp [hs', genMessageId_ne_empty, hnow]
  · by_cases hs : s = "" <;> simp [hs, genMessageId_ne_empty, hnow]
  · by_cases hs : s = "" <;> by_cases hs' : s' = "" <;>
      simp [hs, hs', genMessageId_ne_empty, hnow]

/-- Witness for C2: a concrete round-trip, discharging the non-empty
timestamp hypothesis at `"2025-01-01T00:00:00"`. -/
theorem message_roundtrip_witness :
    Message.from_dict
      (Message.to_dict
        (Message.init (V := String) .crawler .orchestrator .notifyMsg
          [("status", "complete")] none none 5 none 1700000000 42
          "2025-01-01T00:00:00"))
      1700000999 77 "2025-01-02T00:00:00"
    = some (Message.init (V := String) .crawler .orchestrator .notifyMsg
        [("status", "complete")] none none 5 none 1700000000 42
        "2025-01-01T00:00:00") :=
  message_roundtrip .crawler .orchestrator .notifyMsg
    [("status", "complete")] none none 5 none 1700000000 42
    "2025-01-01T00:00:00" 1700000999 77 "2025-01-02T00:00:00"
    (by decide)

/-! ## C10: `update_status` writes the pre-call status -/

/-- A concrete agent currently marked `"running"`, for exercising
`update_status` calls. -/
def demoAgentRunning : AgentState :=
  { agent_type := .analysis, running := true, status := "running",
    statusWrites := [] }

/-- **C10 (counterexample).** The claim quantifies over every non-`None`
error argument, but `update_status`'s `if error:` uses Python truthiness:
at `error = some ""` (reachable — the loop calls `update_status(str(e))`
and `str(e)` is empty for e.g. a bare `Exception()`) the branch is
skipped, so the written record has *no* error field attached and the
in-memory status is left at its prior value, never set to `"error"`. -/
theorem update_status_empty_error_counterexample :
    (demoAgentRunning.update_status (some "")).statusWrites
      = [{ status := "running", agent_type := .analysis, error := none }]
    ∧ (demoAgentRunning.update_status (some "")).status = "running"
    ∧ (demoAgentRunning.update_status (some "")).status ≠ "error" := by
  refine ⟨rfl, rfl, by decide⟩

/-- **C10 (amended).** When `Agent.update_status` is called with a
non-`None`, *non-empty* error argument, the record written to the status
file carries the agent's status from before the call (the record is
composed before the `if error:` branch runs), with the error message
attached as a separate field; the in-memory status becomes `"error"` only
afterwards.  At a non-`None` but empty error string the truthiness check
skips the branch: no error field is attached and the status is unchanged.
For *every* call, the written record's status field is the pre-call
status, so the file written by that call never has status `"error"`
unless it already was `"error"` before the call. -/
theorem update_status_error_keeps_prior_status (s : AgentState) (e : String)
    (he : e ≠ "") :
    ((s.update_status (some e)).statusWrites
      = s.statusWrites ++ [{ status := s.status, agent_type := s.agent_type,
                             error := some e }]
    ∧ (s.update_status (some e)).status = "error")
    ∧ (∀ err : Option String,
        (s.update_status err).statusWrites
          = s.statusWrites ++
              [{ status := s.status, agent_type := s.agent_type,
                 error := if strTruthy err then err else none }]) := by
  constructor
  · constructor <;> simp [AgentState.update_status, strTruthy, he]
  · intro err
    by_cases ht : strTruthy err = true <;>
      simp [AgentState.update_status, ht]

/-- Witness for the amended C10: a non-empty error message at the
concrete `"running"` agent. -/
theorem update_status_error_keeps_prior_status_witness :
    ("sandbox failed" ≠ "")
    ∧ (((demoAgentRunning.update_status (some "sandbox failed")).statusWrites
        = demoAgentRunning.statusWrites ++
            [{ status := demoAgentRunning.status,
               agent_type := demoAgentRunning.agent_type,
               error := some "sandbox failed" }]
      ∧ (demoAgentRunning.update_status (some "sandbox failed")).status
          = "error")
      ∧ (∀ err : Option String,
          (demoAgentRunning.update_status err).statusWrites
            = demoAgentRunning.statusWrites ++
                [{ status := demoAgentRunning.status,
                   agent_type := demoAgentRunning.agent_type,
                   error := if strTruthy err then err else none }])) :=
  ⟨by decide,
   update_status_error_keeps_prior_status demoAgentRunning "sandbox failed"
     (by decide)⟩

/-! ## C3: exceptions escaping the `run` loop -/

/-- The loop body of `runLoop` skips non-exception events, so the first
exception event determines the rest of the run: the `except` branch sets
the in-memory status to `"error"`, calls `update_status(str(e))`, and the
remaining events are discarded (the loop is not re-entered); the `finally`
branch then runs `stop()`. -/
lemma runLoop_first_exc (s : AgentState) (e : String)
    (events rest : List LoopEvent)
    (h : events.all (fun ev => ev.isExc = false) = true) :
    s.runLoop (events ++ LoopEvent.exc e :: rest)
      = (({ s with status := "error" }).update_status (some e)).stopAgent := by
  induction events with
  | nil => rfl
  | cons ev tail ih =>
      rw [List.all_cons, Bool.and_eq_true] at h
      cases ev with
      | msg => exact ih h.2
      | empty => exact ih h.2
      | exc e2 => exact absurd h.1 (by simp [LoopEvent.isExc])

/-- A concrete agent used for concrete runs of the base-agent model. -/
def demoAgent : AgentState :=
  { agent_type := .analysis, running := false, status := "idle",
    statusWrites := [] }

/-- **C3 (counterexample).** The claim also asserts that after the loop has
exited through the exception path, the agent's *persisted* status is
`error`.  It is not: `Agent.run`'s `finally` clause calls `self.stop()`,
which sets the status to `"idle"` and persists it, overwriting the error
record.  Concretely, running an agent whose loop raises `"boom"` leaves
`"idle"` as the last status written to the status file. -/
theorem run_exception_persisted_status_counterexample :
    (demoAgent.run [LoopEvent.exc "boom"]).persistedStatus = some "idle"
    ∧ (demoAgent.run [LoopEvent.exc "boom"]).persistedStatus ≠ some "error" := by
  constructor
  · rfl
  · decide

/-- **C3 (amended).** If an exception escapes the body of the run loop, the
agent's in-memory status is set to `error` (unconditionally, in the
`except` branch, before `update_status` is called) and a record with
status `"error"` is persisted to the status file, carrying the exception
message as the error field when `str(e)` is non-empty (for an empty
message, `update_status`'s `if error:` truthiness check omits the field);
the loop exits without retrying (events after the exception are never
processed).  However, the `finally` clause then runs `stop()`, which
persists a final `"idle"` record, so after the loop has exited the
persisted status is `idle`, with the error record as the penultimate
write. -/
theorem run_exception_error_persisted_then_idle
    (s : AgentState) (events : List LoopEvent) (e : String)
    (rest : List LoopEvent)
    (h : events.all (fun ev => ev.isExc = false) = true) :
    s.run (events ++ LoopEvent.exc e :: rest)
      = { agent_type := s.agent_type, running := false, status := "idle",
          statusWrites := s.statusWrites ++
            [{ status := "running", agent_type := s.agent_type, error := none },
             { status := "error", agent_type := s.agent_type,
               error := if e = "" then none else some e },
             { status := "idle", agent_type := s.agent_type, error := none }]
        } := by
  unfold AgentState.run
  rw [runLoop_first_exc _ e events rest h]
  by_cases he : e = "" <;>
    simp [AgentState.startAgent, AgentState.stopAgent,
      AgentState.update_status, strTruthy, he]

/-- Witness for the amended C3: a concrete run in which the loop sees one
message and one empty poll, then raises `"boom"`; the two events after the
exception are discarded. -/
theorem run_exception_error_persisted_then_idle_witness :
    ([LoopEvent.msg, LoopEvent.empty].all (fun ev => ev.isExc = false) = true)
    ∧ demoAgent.run
        ([LoopEvent.msg, LoopEvent.empty] ++
          LoopEvent.exc "boom" :: [LoopEvent.msg, LoopEvent.empty])
      = { agent_type := demoAgent.agent_type, running := false,
          status := "idle",
          statusWrites := demoAgent.statusWrites ++
            [{ status := "running", agent_type := demoAgent.agent_type,
               error := none },
             { status := "error", agent_type := demoAgent.agent_type,
               error := if "boom" = "" then none else some "boom" },
             { status := "idle", agent_type := demoAgent.agent_type,
               error := none }] } :=
  ⟨by decide,
   run_exception_error_persisted_then_idle demoAgent
     [LoopEvent.msg, LoopEvent.empty] "boom"
     [LoopEvent.msg, LoopEvent.empty] (by decide)⟩

/-! ## C9: empty pages list — no division by zero -/

/-- **C9.** If the crawl result's pages list is empty,
`analyze_crawl_result` does not divide by zero: the
`crawl_result["pages"]`-guarded conditional expressions set
`header_percentage`, `footer_percentage`, `nav_percentage` and
`avg_sections_per_page` all to `0`. -/
theorem empty_pages_percentages_zero (cr : CrawlResult)
    (h : cr.pages = []) :
    (pageStructureOf cr).header_percentage = 0
    ∧ (pageStructureOf cr).footer_percentage = 0
    ∧ (pageStructureOf cr).nav_percentage = 0
    ∧ (pageStructureOf cr).avg_sections_per_page = 0 := by
  simp [pageStructureOf, h]

/-- Witness for C9: a crawl result with no pages. -/
theorem empty_pages_percentages_zero_witness :
    (CrawlResult.pages { base_url := "http://example.com", pages := [],
                         assets := [] } = [])
    ∧ ((pageStructureOf { base_url := "http://example.com", pages := [],
                          assets := [] }).header_percentage = 0
       ∧ (pageStructureOf { base_url := "http://example.com", pages := [],
                            assets := [] }).footer_percentage = 0
       ∧ (pageStructureOf { base_url := "http://example.com", pages := [],
                            assets := [] }).nav_percentage = 0
       ∧ (pageStructureOf { base_url := "http://example.com", pages := [],
                            assets := [] }).avg_sections_per_page = 0) :=
  ⟨rfl,
   empty_pages_percentages_zero
     { base_url := "http://example.com", pages := [], assets := [] } rfl⟩

/-! ## C6: the analysis percentages -/

/-- Decidable equality of `Except` values, for evaluating the embedded
fallible functions at concrete inputs. -/
instance {e a : Type} [DecidableEq e] [DecidableEq a] :
    DecidableEq (Except e a) := fun x y =>
  match x, y with
  | .ok u, .ok v =>
      if h : u = v then isTrue (by rw [h]) else isFalse (by simp [h])
  | .error u, .error v =>
      if h : u = v then isTrue (by rw [h]) else isFalse (by simp [h])
  | .ok _, .error _ => isFalse (by simp)
  | .error _, .ok _ => isFalse (by simp)

/-- The generator-sum count equals the length of the filtered list. -/
lemma countPages_eq_filter_length (pages : List Page) (f : Page → Bool) :
    countPages pages f = (pages.filter f).length := by
  induction pages with
  | nil => rfl
  | cons p rest ih =>
      unfold countPages at *
      by_cases h : f p <;> simp [List.filter_cons, h] <;> omega

/-- **C6.** For every crawl result with a non-empty pages list, the
analysis artifact's `header_percentage`, `footer_percentage` and
`nav_percentage` each equal the number of pages whose corresponding flag
is true, divided by the total number of pages, times 100.  (Embedded over
`ℚ`; the witness below instantiates this at a 3-page crawl result, where
the values are exact percentages of 3.) -/
theorem analysis_percentages (cr : CrawlResult) (a : AnalysisResult)
    (hne : cr.pages ≠ [])
    (ha : analyze_crawl_result cr = Except.ok a) :
    a.page_structure.header_percentage
        = ((cr.pages.filter (·.has_header)).length : ℚ)
            / cr.pages.length * 100
    ∧ a.page_structure.footer_percentage
        = ((cr.pages.filter (·.has_footer)).length : ℚ)
            / cr.pages.length * 100
    ∧ a.page_structure.nav_percentage
        = ((cr.pages.filter (·.has_nav)).length : ℚ)
            / cr.pages.length * 100 := by
  have hps : a.page_structure = pageStructureOf cr := by
    unfold analyze_crawl_result at ha
    by_cases hassets : cr.assets = [] <;> simp [hassets] at ha
    exact (congrArg AnalysisResult.page_structure ha.symm)
  rw [hps]
  simp [pageStructureOf, hne, countPages_eq_filter_length]

/-- A concrete 3-page crawl result (2 headers, 3 footers, 2 navs). -/
def demoCrawl : CrawlResult :=
  { base_url := "http://example.com"
    pages := [{ has_header := true, has_footer := true, has_nav := true,
                num_sections := 0 },
              { has_header := true, has_footer := true, has_nav := false,
                num_sections := 1 },
              { has_header := false, has_footer := true, has_nav := true,
                num_sections := 2 }]
    assets := [{ css_count := 2, js_count := 6, image_count := 1 }] }

/-- The analysis artifact `analyze_crawl_result` produces for `demoCrawl`
(the error fallback is never taken: `demoCrawl.assets` is non-empty). -/
def demoAnalysis : AnalysisResult :=
  match analyze_crawl_result demoCrawl with
  | .ok a => a
  | .error _ =>
      { base_url := "", pages_analyzed := 0
        page_structure := { header_percentage := 0, footer_percentage := 0,
                            nav_percentage := 0, avg_sections_per_page := 0 }
        asset_analysis := { total_css_files := 0, total_js_files := 0,
                            total_images := 0, avg_css_per_page := 0,
                            avg_js_per_page := 0, avg_images_per_page := 0 }
        recommendations := [] }

/-- Witness for C6: the 3-page crawl result; the three percentages are the
exact rationals `200/3`, `100` and `200/3` — exact percentages of 3. -/
theorem analysis_percentages_witness :
    demoCrawl.pages ≠ []
    ∧ analyze_crawl_result demoCrawl = Except.ok demoAnalysis
    ∧ (demoAnalysis.page_structure.header_percentage
          = ((demoCrawl.pages.filter (·.has_header)).length : ℚ)
              / demoCrawl.pages.length * 100
       ∧ demoAnalysis.page_structure.footer_percentage
          = ((demoCrawl.pages.filter (·.has_footer)).length : ℚ)
              / demoCrawl.pages.length * 100
       ∧ demoAnalysis.page_structure.nav_percentage
          = ((demoCrawl.pages.filter (·.has_nav)).length : ℚ)
              / demoCrawl.pages.length * 100)
    ∧ (((demoCrawl.pages.filter (·.has_header)).length : ℚ)
          / demoCrawl.pages.length * 100 = 200 / 3
       ∧ ((demoCrawl.pages.filter (·.has_footer)).length : ℚ)
          / demoCrawl.pages.length * 100 = 100
       ∧ ((demoCrawl.pages.filter (·.has_nav)).length : ℚ)
          / demoCrawl.pages.length * 100 = 200 / 3) :=
  ⟨by decide, rfl,
   analysis_percentages demoCrawl demoAnalysis (by decide) rfl,
   by norm_num [demoCrawl]⟩

/-! ## C7: the feedback score rubric and assessment bands -/

/-- The `for` loop over the analysis recommendations counts every element:
`recommendations_followed` always equals the list's length. -/
lemma countFollowed_eq_length (l : List String) :
    countFollowed l = l.length := by
  induction l with
  | nil => rfl
  | cons x rest ih => simp [countFollowed, ih]

/-- The fixed rubric of §4.4, restated independently of
`evaluate_implementation`: one point for at least three generated files,
one point for passing tests, and one point when all recommendations are
followed (half a point when only some are — with the loop counting every
recommendation as followed, the all-followed branch is the one taken,
including for an empty recommendation list). -/
def rubricScore (impl : Implementation) (recommendations : List String) : ℚ :=
  (if impl.files.length ≥ 3 then 1 else 0)
  + (if impl.tests_passed = some true then 1 else 0)
  + (if countFollowed recommendations = recommendations.length then 1
     else if 0 < countFollowed recommendations then 1 / 2 else 0)

/-- **C7.** For every evaluated implementation result, the feedback
artifact's `overall_assessment` is a non-empty string determined by the
score from exactly three fixed bands — the `Good implementation` band for
`score >= 2`, the `Acceptable implementation` band for `1 <= score < 2`,
and the `needs significant improvement` band for `score < 1` — and the
score is the one computed by the fixed rubric over file count, test
pass/fail, and recommendations followed. -/
theorem feedback_assessment_bands (impl : Implementation)
    (recommendations : List String) :
    (evaluate_implementation impl recommendations).overall_assessment ≠ ""
    ∧ (evaluate_implementation impl recommendations).score
        = rubricScore impl recommendations
    ∧ (evaluate_implementation impl recommendations).overall_assessment
        = (if (evaluate_implementation impl recommendations).score ≥ 2 then
             "Good implementation that meets most requirements"
           else if (evaluate_implementation impl recommendations).score ≥ 1
           then "Acceptable implementation with room for improvement"
           else "Implementation needs significant improvement") := by
  rcases impl with ⟨files, tp⟩
  by_cases h3 : files.length ≥ 3 <;>
    rcases tp with _ | b <;> (try cases b) <;>
      simp [evaluate_implementation, rubricScore, countFollowed_eq_length,
        h3] <;>
      norm_num <;> decide

/-! ## C8: `execute_code` never raises, but its result shape is broken -/

/-- **C8 (evaluation of the defect).** With a machine created,
`execute_code` indeed never lets an exception escape its boundary and
always returns a dict with exactly the keys `success`, `output`,
`return_value`, `error` (the `ExecResult` shape).  But for *every* outcome
— normal completion, timeout, or subprocess failure alike — the returned
dict is the same `success: False` record whose error is the
`AttributeError` raised by reading `result.output` on the plain dict that
the stub `ForeverVMMachine.run` returns.  In particular, on a timeout the
result does not reflect the timeout state (`machineRun`'s
`state = "timeout"` is discarded), and even successful executions are
reported as failures, contradicting the function's own docstring
(`success: Boolean indicating success`). -/
theorem execute_code_always_attribute_error (outcome : SubprocessOutcome) :
    execute_code true outcome
      = Except.ok
          { success := false, output := none, return_value := none,
            error := some
              "AttributeError: dict object has no attribute output" }
    ∧ (machineRun SubprocessOutcome.timedOut).state = "timeout" := by
  cases outcome <;> exact ⟨rfl, rfl⟩

/-! ## C1: asymmetric error escalation -/

/-- `progressPhase` leaves `system_state` unchanged on every state whose
matching agent result is absent (the in-order-pipeline condition). -/
lemma progressPhase_preserves_state (s : OrchestratorState)
    (h : resultConsistent s = true) :
    (progressPhase s).1.system_state = s.system_state := by
  unfold resultConsistent at h
  unfold progressPhase
  cases hs : s.system_state <;> rw [hs] at h <;>
    simp_all [Option.isNone_iff_eq_none]

/-- `check_system_progress` leaves `system_state` unchanged whenever the
crawler's status is not `"error"` and the in-order-pipeline condition
holds: both the no-error path and the non-crawler-error path fall through
to the progress checks, which stall. -/
lemma check_progress_preserves_state (s : OrchestratorState)
    (hcr : s.agents_status AgentType.crawler ≠ "error")
    (hcons : resultConsistent s = true) :
    (check_system_progress s).1.system_state = s.system_state := by
  unfold check_system_progress
  by_cases hA : anyStatusError s.agents_status = true <;>
    simp [hA, hcr, progressPhase_preserves_state s hcons]

/-- **C1 (amended).** Error escalation is asymmetric.  Handling an error
notification from the crawler forces the orchestrator's `system_state` to
`error` (unconditionally: the handler marks the crawler's status `error`
and `check_system_progress` then aborts).  Handling an error notification
from the analysis, implementation, or feedback agent leaves `system_state`
at its current value *provided* the crawler is not already in error and
the result for the stage matching the current state has not yet been
recorded (the in-order-pipeline condition).  The proviso is needed: the
claim's unconditional no-change half fails on reachable states in which an
out-of-order completion has already recorded the current stage's result —
there the error handler's fall-through into the progress checks advances
the state (see the counterexample below). -/
theorem error_escalation_asymmetric (s : OrchestratorState) (e : String)
    (src : AgentType)
    (hok : s.agents_status AgentType.crawler ≠ "error")
    (hcons : resultConsistent s = true) :
    (handle_message s (OrcIn.errorIn AgentType.crawler e)).1.system_state
        = SystemState.error
    ∧ (src = AgentType.analysis ∨ src = AgentType.implementation ∨
        src = AgentType.feedback →
       (handle_message s (OrcIn.errorIn src e)).1.system_state
         = s.system_state) := by
  constructor
  · have hany :
        anyStatusError (updStatus s.agents_status AgentType.crawler "error")
          = true := by
      simp [anyStatusError, allAgents, updStatus]
    have hcr :
        updStatus s.agents_status AgentType.crawler "error" AgentType.crawler
          = "error" := by
      simp [updStatus]
    simp [handle_message, check_system_progress, hany, hcr]
  · intro hsrc
    have hMain : ∀ src2 : AgentType, src2 ≠ AgentType.crawler →
        (handle_message s (OrcIn.errorIn src2 e)).1.system_state
          = s.system_state := by
      intro src2 hne
      show (check_system_progress
          { s with agents_status := updStatus s.agents_status src2 "error"
          }).1.system_state = s.system_state
      exact check_progress_preserves_state _
        (by simpa [updStatus, Ne.symm hne] using hok) hcons
    rcases hsrc with rfl | rfl | rfl <;> exact hMain _ (by decide)

/-- **C1 (counterexample).** A reachable orchestrator state violating the
claim's unconditional no-change half.  From the initial state, a `set_url`
request starts iteration 1 (`crawling`); the analysis completion
notification is processed *before* the crawler's (out-of-order delivery,
possible because orchestrator-bound messages rotate through the shared
queue), recording the analysis result while the state stays `crawling`;
the crawler completion then advances the state to `analyzing` with the
analysis result already recorded. -/
def preErrorOrch : OrchestratorState :=
  runOrch orchInit
    [OrcIn.setUrl AgentType.orchestrator (some "http://example.com"),
     OrcIn.notifyIn AgentType.analysis "complete"
       (some "/tmp/analysis/result.json"),
     OrcIn.notifyIn AgentType.crawler "complete"
       (some "/tmp/crawler/result.json")]

/-- **C1 (counterexample, continued).** At `preErrorOrch` — where no
agent's status is `"error"` — handling an error notification from the
implementation agent *changes* the orchestrator's system state, from
`analyzing` to `implementing`: the handler marks the implementation agent
`error`, `check_system_progress` falls through (the crawler is not in
error), and the `analyzing` progress check fires on the stale analysis
result.  This refutes the claim as stated, which asserts no change for
any non-crawler error notification. -/
theorem error_escalation_counterexample :
    preErrorOrch.system_state = SystemState.analyzing
    ∧ (∀ a : AgentType, preErrorOrch.agents_status a ≠ "error")
    ∧ (handle_message preErrorOrch
        (OrcIn.errorIn AgentType.implementation "boom")).1.system_state
        = SystemState.implementing
    ∧ (handle_message preErrorOrch
        (OrcIn.errorIn AgentType.implementation "boom")).1.system_state
      ≠ preErrorOrch.system_state := by
  refine ⟨by decide, ?_, by decide, by decide⟩
  intro a
  cases a <;> decide

/-- A concrete in-progress orchestrator state reached by in-order
processing: mid-first iteration, analysis stage running, crawler result
recorded and the state already advanced to `analyzing`. -/
def demoOrch : OrchestratorState :=
  { system_state := SystemState.analyzing
    current_iteration := 1
    max_iterations := 3
    agents_status := updStatus (fun _ => "idle") AgentType.crawler "idle"
    agent_results := updResult (fun _ => none) AgentType.crawler
      "/tmp/crawler/result.json"
    target_url := some "http://example.com"
    config_url := some "http://example.com" }

/-- Witness for the amended C1: at `demoOrch`, which satisfies both
provisos, a crawler error forces `error`, while an analysis error leaves
the state at `analyzing`. -/
theorem error_escalation_asymmetric_witness :
    demoOrch.agents_status AgentType.crawler ≠ "error"
    ∧ resultConsistent demoOrch = true
    ∧ ((handle_message demoOrch
          (OrcIn.errorIn AgentType.crawler "sandbox failed")).1.system_state
        = SystemState.error
      ∧ (AgentType.analysis = AgentType.analysis ∨
          AgentType.analysis = AgentType.implementation ∨
          AgentType.analysis = AgentType.feedback →
         (handle_message demoOrch
            (OrcIn.errorIn AgentType.analysis "sandbox failed")).1.system_state
           = demoOrch.system_state)) :=
  ⟨by decide, by decide,
   error_escalation_asymmetric demoOrch "sandbox failed" AgentType.analysis
     (by decide) (by decide)⟩

/-! ## C5: `set_url` idempotence during an in-progress iteration -/

/-- **C5.** Handling a `set_url` request carrying the same URL twice in
succession does not change the orchestrator's `current_iteration` and does
not restart an in-progress iteration: when the system state is `crawling`,
`analyzing`, `implementing` or `feedback`, the `set_url` branch only
rewrites the target URL and the config file — the
`complete`-or-`initializing` guard blocks `start_iteration` — so both the
iteration counter and the system state are unchanged and no crawl request
is sent by either call. -/
theorem set_url_idempotent_in_progress (s : OrchestratorState) (u : String)
    (src : AgentType)
    (h : s.system_state = SystemState.crawling ∨
         s.system_state = SystemState.analyzing ∨
         s.system_state = SystemState.implementing ∨
         s.system_state = SystemState.feedback) :
    (handle_message (handle_message s (OrcIn.setUrl src (some u))).1
        (OrcIn.setUrl src (some u))).1.current_iteration
      = s.current_iteration
    ∧ (handle_message (handle_message s (OrcIn.setUrl src (some u))).1
        (OrcIn.setUrl src (some u))).1.system_state = s.system_state
    ∧ ((handle_message s (OrcIn.setUrl src (some u))).2 ++
       (handle_message (handle_message s (OrcIn.setUrl src (some u))).1
          (OrcIn.setUrl src (some u))).2).any OrcOut.isCrawlRequest
      = false := by
  by_cases hu : u = ""
  · simp [handle_message, hu, OrcOut.isCrawlRequest]
  · rcases h with h | h | h | h <;>
      simp [handle_message, hu, h, OrcOut.isCrawlRequest]

/-- Witness for C5: two `set_url` calls with the same URL at the concrete
in-progress state `demoOrch` (which is in `analyzing`). -/
theorem set_url_idempotent_in_progress_witness :
    (demoOrch.system_state = SystemState.crawling ∨
     demoOrch.system_state = SystemState.analyzing ∨
     demoOrch.system_state = SystemState.implementing ∨
     demoOrch.system_state = SystemState.feedback)
    ∧ ((handle_message
          (handle_message demoOrch
            (OrcIn.setUrl AgentType.orchestrator
              (some "http://example.com"))).1
          (OrcIn.setUrl AgentType.orchestrator
            (some "http://example.com"))).1.current_iteration
        = demoOrch.current_iteration
      ∧ (handle_message
          (handle_message demoOrch
            (OrcIn.setUrl AgentType.orchestrator
              (some "http://example.com"))).1
          (OrcIn.setUrl AgentType.orchestrator
            (some "http://example.com"))).1.system_state
        = demoOrch.system_state
      ∧ ((handle_message demoOrch
            (OrcIn.setUrl AgentType.orchestrator
              (some "http://example.com"))).2 ++
         (handle_message
            (handle_message demoOrch
              (OrcIn.setUrl AgentType.orchestrator
                (some "http://example.com"))).1
            (OrcIn.setUrl AgentType.orchestrator
              (some "http://example.com"))).2).any OrcOut.isCrawlRequest
        = false) :=
  ⟨Or.inr (Or.inl rfl),
   set_url_idempotent_in_progress demoOrch "http://example.com"
     AgentType.orchestrator (Or.inr (Or.inl rfl))⟩

/-! ## C4: two iterations reach `complete`, and the counter only grows -/

/-- One successful pipeline pass as the orchestrator observes it: four
completion notifications, each carrying a result path. -/
def pipelinePass (p1 p2 p3 p4 : String) : List OrcIn :=
  [OrcIn.notifyIn AgentType.crawler "complete" (some p1),
   OrcIn.notifyIn AgentType.analysis "complete" (some p2),
   OrcIn.notifyIn AgentType.implementation "complete" (some p3),
   OrcIn.notifyIn AgentType.feedback "complete" (some p4)]

/-- `start_iteration` increments the iteration counter by exactly one, in
both of its branches. -/
lemma start_iteration_iter (s : OrchestratorState) :
    (start_iteration s).1.current_iteration = s.current_iteration + 1 := by
  unfold start_iteration
  by_cases h : s.current_iteration + 1 > s.max_iterations <;> simp [h]

/-- The progress checks never decrease the iteration counter. -/
lemma progressPhase_iter_le (s : OrchestratorState) :
    s.current_iteration ≤ (progressPhase s).1.current_iteration := by
  unfold progressPhase
  split_ifs <;> simp [start_iteration_iter]

/-- `check_system_progress` never decreases the iteration counter. -/
lemma check_iter_le (s : OrchestratorState) :
    s.current_iteration ≤ (check_system_progress s).1.current_iteration := by
  unfold check_system_progress
  split_ifs <;> first | simp | exact progressPhase_iter_le s

/-- No message handling decreases the iteration counter. -/
lemma handle_message_iter_le (s : OrchestratorState) (m : OrcIn) :
    s.current_iteration ≤ (handle_message s m).1.current_iteration := by
  cases m with
  | notifyIn src status rp =>
      have key : ∀ s2 : OrchestratorState,
          s2.current_iteration = s.current_iteration →
          s.current_iteration ≤
            (check_system_progress s2).1.current_iteration := by
        intro s2 hh
        rw [← hh]
        exact check_iter_le s2
      by_cases hst : status = "complete"
      · cases rp with
        | none =>
            simp only [handle_message, hst, if_true]
            exact key _ rfl
        | some p =>
            by_cases hp : p = "" <;>
              simp [handle_message, hst, hp] <;>
              exact key _ rfl
      · simp [handle_message, hst]
  | errorIn src e =>
      exact check_iter_le
        { s with agents_status := updStatus s.agents_status src "error" }
  | setUrl src url =>
      rcases url with _ | u
      · simp [handle_message]
      · by_cases hu : u = ""
        · simp [handle_message, hu]
        · simp only [handle_message, hu, if_false]
          split_ifs <;> simp [start_iteration_iter]
  | startReq src =>
      rcases hurl : s.target_url with _ | u
      · simp [handle_message, hurl]
      · by_cases hu : u = "" <;>
          simp [handle_message, hurl, hu, start_iteration_iter]
  | stopReq src => simp [handle_message]
  | otherIn => simp [handle_message]

/-- `OrchestratorAgent.start` never decreases the iteration counter. -/
lemma orchestratorStart_iter_le (s : OrchestratorState)
    (cfg : Option String) :
    s.current_iteration ≤ (orchestratorStart s cfg).1.current_iteration := by
  unfold orchestratorStart
  rcases cfg with _ | u
  · simp
  · by_cases hu : u = "" <;> simp [hu, start_iteration_iter]

/-- **C4.** With `max_iterations = 2` and a configured target URL, after
two full successful pipeline passes — each ending with a feedback
completion notification — the orchestrator's state is `complete` and
`current_iteration` equals `2`; and no operation (message handling or
startup) ever resets `current_iteration` to a smaller value — it is only
incremented.  The result paths of the eight completion notifications are
required to be non-empty, as every successful stage's notification is in
the source (`str(self.result_file)`): an empty path would fail the
handler's `if result_path:` truthiness check and not be recorded. -/
theorem two_iterations_complete_iter_monotone :
    (∀ (u p1 p2 p3 p4 p5 p6 p7 p8 : String), u ≠ "" →
      p1 ≠ "" → p2 ≠ "" → p3 ≠ "" → p4 ≠ "" →
      p5 ≠ "" → p6 ≠ "" → p7 ≠ "" → p8 ≠ "" →
      (runOrch
          (orchestratorStart { orchInit with max_iterations := 2 }
            (some u)).1
          (pipelinePass p1 p2 p3 p4 ++ pipelinePass p5 p6 p7 p8)).system_state
        = SystemState.complete
      ∧ (runOrch
          (orchestratorStart { orchInit with max_iterations := 2 }
            (some u)).1
          (pipelinePass p1 p2 p3 p4 ++
            pipelinePass p5 p6 p7 p8)).current_iteration = 2)
    ∧ (∀ (s : OrchestratorState) (m : OrcIn),
        s.current_iteration ≤ (handle_message s m).1.current_iteration)
    ∧ (∀ (s : OrchestratorState) (cfg : Option String),
        s.current_iteration ≤ (orchestratorStart s cfg).1.current_iteration)
    := by
  refine ⟨?_, handle_message_iter_le, orchestratorStart_iter_le⟩
  intro u p1 p2 p3 p4 p5 p6 p7 p8 hu h1 h2 h3 h4 h5 h6 h7 h8
  simp [runOrch, orchestratorStart, hu, h1, h2, h3, h4, h5, h6, h7, h8,
    orchInit, start_iteration, pipelinePass, handle_message,
    check_system_progress, progressPhase, anyStatusError, allAgents,
    updStatus, updResult]

/-- Witness for C4: the two-pass scenario at a concrete URL and concrete
non-empty result paths. -/
theorem two_iterations_complete_iter_monotone_witness :
    ("http://example.com" ≠ "" ∧ "p1" ≠ "" ∧ "p2" ≠ "" ∧ "p3" ≠ "" ∧
     "p4" ≠ "" ∧ "p5" ≠ "" ∧ "p6" ≠ "" ∧ "p7" ≠ "" ∧ "p8" ≠ "")
    ∧ ((runOrch
          (orchestratorStart { orchInit with max_iterations := 2 }
            (some "http://example.com")).1
          (pipelinePass "p1" "p2" "p3" "p4" ++
            pipelinePass "p5" "p6" "p7" "p8")).system_state
        = SystemState.complete
      ∧ (runOrch
          (orchestratorStart { orchInit with max_iterations := 2 }
            (some "http://example.com")).1
          (pipelinePass "p1" "p2" "p3" "p4" ++
            pipelinePass "p5" "p6" "p7" "p8")).current_iteration = 2) :=
  ⟨by decide,
   two_iterations_complete_iter_monotone.1 "http://example.com"
     "p1" "p2" "p3" "p4" "p5" "p6" "p7" "p8" (by decide) (by decide)
     (by decide) (by decide) (by decide) (by decide) (by decide)
     (by decide) (by decide)⟩

end MultiAgent
